import Mathlib

/-!
Shallow embedding of the TripVerse Community chat front end
(src/pages/Community.tsx, src/components/ChatThread.tsx,
src/components/CreateGroupDialog.tsx, src/components/GroupInfoDrawer.tsx).

Each React event handler or data-fetching effect is modelled as a pure
function from the relevant component state plus the server response to the
new component state, the list of HTTP requests it issues, and the list of
user-visible effects (console logs, toasts, navigation).  A server response
is an `Option`: `none` is the catch branch (network/HTTP failure), `some r`
is the parsed success payload.  Locale time formatting
(`toLocaleTimeString`) is environment-dependent, so it is abstracted as a
`String` argument (`now`) or a formatting function (`fmtTime`).
-/

namespace TripVerse

/-- Model of the JavaScript `String.prototype.trim` call: drop leading and
trailing whitespace characters. -/
def jsTrim (s : String) : String :=
  ⟨((s.data.dropWhile Char.isWhitespace).reverse.dropWhile Char.isWhitespace).reverse⟩

/-- Model of JavaScript truthiness for an optional string (`null`/`undefined`
and the empty string are falsy). -/
def jsTruthy : Option String → Bool
  | none => false
  | some s => s ≠ ""

/-- Model of `a || b` on JavaScript strings where `a` may be absent: an
absent or empty left operand falls through to the right one. -/
def strOr (a : Option String) (b : String) : String :=
  match a with
  | none => b
  | some s => if s = "" then b else s

/-- Model of the JavaScript `Number(s)` conversion restricted to the
member-id strings the dialogs feed it: a non-empty all-digit string parses
as the decimal number; anything else (which JavaScript would turn into
`NaN`) is modelled as `0`. -/
def jsNumber (s : String) : Nat :=
  if s.data ≠ [] ∧ s.data.all Char.isDigit then
    s.data.foldl (fun n c => 10 * n + (c.toNat - 48)) 0
  else 0

/-- Message record (`Message` interface in Community.tsx / ChatThread.tsx). -/
structure Message where
  id : String
  sender : String
  content : String
  timestamp : String
  isOwn : Bool
deriving Repr, DecidableEq

/-- User record (`User` interface in Community.tsx). -/
structure User where
  id : String
  name : String
  email : String
  avatarUrl : Option String := none
deriving Repr, DecidableEq

/-- Conversation record (`Chat` interface in Community.tsx). -/
structure Chat where
  id : String
  name : String
  isGroup : Bool
  isFavorite : Bool
  unread : Nat
  timestamp : String
  members : List User
  messages : List Message
  type : Option String := none
deriving Repr, DecidableEq

/-- The HTTP requests of the external-interface table, tagged with the data
each call site sends. -/
inductive Request where
  | authMe
  | authAll
  | listConversations
  | listMessages (conversationId : String)
  | sendMessage (conversationId : String) (content : String)
  | createGroup (name : String) (memberIds : List Nat)
  | openDm (userId : String)
  | listMembers (conversationId : String)
  | addMembers (conversationId : String) (memberIds : List Nat)
  | removeMember (conversationId : String) (memberId : String)
  | deleteConversation (conversationId : String)
deriving Repr, DecidableEq

/-- User-visible side effects of a handler: console diagnostics, toast
notices, and navigation. -/
inductive Effect where
  | consoleError (msg : String)
  | toastError (msg : String)
  | toastSuccess (msg : String)
  | navigate (path : String)
deriving Repr, DecidableEq

/-- Whether an effect is a user-facing transient notice (a toast). -/
def Effect.isToast : Effect → Bool
  | Effect.toastError _ => true
  | Effect.toastSuccess _ => true
  | _ => false

/-- Whether an effect is a console diagnostic. -/
def Effect.isLog : Effect → Bool
  | Effect.consoleError _ => true
  | _ => false

/-- One conversation of the `GET /api/conversations` response payload
(`res.data.conversations` element). -/
structure ServerConv where
  id : Nat
  name : Option String
  dmName : Option String
  type : String
  updatedAt : Option String
  members : Option (List User)
deriving Repr, DecidableEq

/-- One message of the `GET /api/messages/:id` response payload
(`res.data.messages` element); `sender` fields are optional because the
code reads them with `m.sender?.name` and `m.sender?.isMe`. -/
structure ServerMsg where
  id : Nat
  content : String
  createdAt : Option String
  senderName : Option String
  senderIsMe : Option Bool
deriving Repr, DecidableEq

/-- Success payload of `POST /api/messages` (`res.data.data`). -/
structure SendResp where
  id : Nat
  content : String
deriving Repr, DecidableEq

/-- Success payload of `POST /api/conversations/group` (`res.data.group`). -/
structure GroupResp where
  id : Nat
  name : String
  members : Option (List User)
deriving Repr, DecidableEq

/-- Success payload of `POST /api/conversations/dm` (`res.data.conversation`). -/
structure DmResp where
  id : Nat
deriving Repr, DecidableEq

namespace Community

/-- Mount effect of Community.tsx (the auth `useEffect`): with a falsy
token it navigates to the login view at once; otherwise it issues
`GET /api/auth/me` and, only when that succeeds, fetches the conversation
list and the user directory; on failure it navigates to the login view.
Returns the requests issued and the effects produced. -/
def mount (token : Option String) (authOk : Bool) :
    List Request × List Effect :=
  if !jsTruthy token then ([], [Effect.navigate "/login"])
  else if authOk then
    ([Request.authMe, Request.listConversations, Request.authAll], [])
  else ([Request.authMe], [Effect.navigate "/login"])

/-- Formatting of one server conversation into a `Chat`
(the `data.map` body of `fetchConversations`). -/
def formatConv (fmtTime : Option String → String) (conv : ServerConv) : Chat :=
  { id := toString conv.id,
    name := strOr conv.name (strOr conv.dmName "Conversation"),
    isGroup := conv.type = "GROUP",
    isFavorite := false,
    unread := 0,
    timestamp := fmtTime conv.updatedAt,
    members := conv.members.getD [],
    messages := [],
    type := some "GROUP" }

/-- `fetchConversations` of Community.tsx: on success the chat list is
replaced by the formatted server conversations; the catch branch only logs
and leaves the chat list unchanged. -/
def fetchConversations (fmtTime : Option String → String)
    (chats : List Chat) (resp : Option (List ServerConv)) :
    List Chat × List Request × List Effect :=
  match resp with
  | none => (chats, [Request.listConversations],
      [Effect.consoleError "Error fetching conversations:"])
  | some data => (data.map (formatConv fmtTime), [Request.listConversations], [])

/-- `fetchAllUsers` of Community.tsx: on success the user directory is
replaced; the catch branch only logs. -/
def fetchAllUsers (users : List User) (resp : Option (List User)) :
    List User × List Request × List Effect :=
  match resp with
  | none => (users, [Request.authAll], [Effect.consoleError "Error fetching users:"])
  | some data => (data, [Request.authAll], [])

/-- Formatting of one server message into a `Message`
(the `res.data.messages.map` body of the message-fetch effect). -/
def formatMsg (fmtTime : Option String → String) (m : ServerMsg) : Message :=
  { id := toString m.id,
    sender := strOr m.senderName "Unknown",
    content := m.content,
    timestamp := fmtTime m.createdAt,
    isOwn := m.senderIsMe.getD false }

/-- The message-fetch `useEffect` of Community.tsx: with a falsy selected
chat id it does nothing; otherwise it issues `GET /api/messages/:id` and on
success replaces the message list of the chat whose id equals the selected
id; the catch branch only logs. -/
def fetchMessages (fmtTime : Option String → String) (chats : List Chat)
    (selectedChatId : Option String) (resp : Option (List ServerMsg)) :
    List Chat × List Request × List Effect :=
  match selectedChatId with
  | none => (chats, [], [])
  | some sid =>
    if sid = "" then (chats, [], [])
    else
      match resp with
      | none => (chats, [Request.listMessages sid],
          [Effect.consoleError "Error fetching messages:"])
      | some data =>
          (chats.map fun chat =>
            if chat.id = sid
            then { chat with messages := data.map (formatMsg fmtTime) }
            else chat,
           [Request.listMessages sid], [])

/-- `handleSendMessage` of Community.tsx: a blank (whitespace-only) content
returns before issuing any request; otherwise `POST /api/messages` is
issued and on success a message built from the response id, sender "You"
and `isOwn := true` is appended to the matching chat; the catch branch only
logs and leaves the chat list unchanged. -/
def handleSendMessage (chats : List Chat) (chatId content now : String)
    (resp : Option SendResp) : List Chat × List Request × List Effect :=
  if jsTrim content = "" then (chats, [], [])
  else
    match resp with
    | none => (chats, [Request.sendMessage chatId content],
        [Effect.consoleError "Error sending message:"])
    | some r =>
        let newMessage : Message :=
          { id := toString r.id, sender := "You", content := content,
            timestamp := now, isOwn := true }
        (chats.map fun c =>
          if c.id = chatId then { c with messages := c.messages ++ [newMessage] } else c,
         [Request.sendMessage chatId content], [])

/-- `handleCreateGroup` of Community.tsx: issues
`POST /api/conversations/group`; on success a fresh group chat built from
the response is prepended to the chat list and the create-group dialog flag
is cleared; the catch branch logs and shows a toast, leaving the list and
the flag unchanged. -/
def handleCreateGroup (chats : List Chat) (showCreateGroup : Bool)
    (name : String) (memberIds : List Nat) (now : String)
    (resp : Option GroupResp) :
    List Chat × Bool × List Request × List Effect :=
  match resp with
  | none => (chats, showCreateGroup, [Request.createGroup name memberIds],
      [Effect.consoleError "Error creating group:",
       Effect.toastError "Failed to create group"])
  | some group =>
      ({ id := toString group.id, name := group.name, isGroup := true,
         isFavorite := false, unread := 0, timestamp := now,
         members := group.members.getD [], messages := [],
         type := some "GROUP" } :: chats,
       false, [Request.createGroup name memberIds], [])

/-- `handleOpenDm` of Community.tsx: issues `POST /api/conversations/dm`;
on success, when the returned conversation id is not already in the chat
list a fresh direct chat is prepended, and in either case the returned id
becomes the selected chat; the catch branch logs and shows a toast, leaving
both the list and the selection unchanged. -/
def handleOpenDm (chats : List Chat) (selectedChatId : Option String)
    (user : User) (now : String) (resp : Option DmResp) :
    List Chat × Option String × List Request × List Effect :=
  match resp with
  | none => (chats, selectedChatId, [Request.openDm user.id],
      [Effect.consoleError "Error opening DM:",
       Effect.toastError "Failed to open DM"])
  | some conversation =>
      let chatId := toString conversation.id
      let chats2 :=
        if chats.any fun c => c.id = chatId then chats
        else
          { id := chatId, name := user.name, isGroup := false,
            isFavorite := false, unread := 0, timestamp := now,
            members := [user], messages := [], type := some "USER" } :: chats
      (chats2, some chatId, [Request.openDm user.id], [])

/-- `handleToggleFavorite` of Community.tsx: a falsy chat id returns at
once; otherwise the `isFavorite` flag of every chat whose id matches is
negated. -/
def handleToggleFavorite (chats : List Chat) (chatId : Option String) :
    List Chat :=
  match chatId with
  | none => chats
  | some cid =>
    if cid = "" then chats
    else chats.map fun c =>
      if c.id = cid then { c with isFavorite := !c.isFavorite } else c

/-- The component state of Community.tsx that the chat operations read and
write: the loaded chat list and the selected chat id. -/
structure CState where
  chats : List Chat
  selectedChatId : Option String
deriving Repr, DecidableEq

/-- One user-driven operation on the Community state, carrying the server
response it observed. `select` models `setSelectedChatId` together with the
message-fetch effect it triggers; `send` models `handleSendMessage` invoked
from the thread view on the selected chat. -/
inductive Op where
  | fetchConvs (resp : Option (List ServerConv))
  | createGroup (showFlag : Bool) (name : String) (memberIds : List Nat)
      (now : String) (resp : Option GroupResp)
  | openDm (user : User) (now : String) (resp : Option DmResp)
  | toggleFav (chatId : Option String)
  | select (chatId : Option String) (resp : Option (List ServerMsg))
  | send (content now : String) (resp : Option SendResp)
deriving Repr

/-- State transition of one operation. -/
def step (fmtTime : Option String → String) (s : CState) : Op → CState
  | Op.fetchConvs resp =>
      { s with chats := (fetchConversations fmtTime s.chats resp).1 }
  | Op.createGroup showFlag name memberIds now resp =>
      { s with chats := (handleCreateGroup s.chats showFlag name memberIds now resp).1 }
  | Op.openDm user now resp =>
      let r := handleOpenDm s.chats s.selectedChatId user now resp
      { chats := r.1, selectedChatId := r.2.1 }
  | Op.toggleFav chatId =>
      { s with chats := handleToggleFavorite s.chats chatId }
  | Op.select chatId resp =>
      { chats := (fetchMessages fmtTime s.chats chatId resp).1,
        selectedChatId := chatId }
  | Op.send content now resp =>
      match s.selectedChatId with
      | none => s
      | some sid =>
          { s with chats := (handleSendMessage s.chats sid content now resp).1 }

/-- Running a sequence of operations from a state. -/
def runOps (fmtTime : Option String → String) : CState → List Op → CState
  | s, [] => s
  | s, op :: rest => runOps fmtTime (step fmtTime s op) rest

/-- The chat ids an operation opens (selects). -/
def opOpened : Op → List String
  | Op.select (some cid) _ => [cid]
  | Op.openDm _ _ (some r) => [toString r.id]
  | _ => []

/-- All chat ids a trace of operations ever opens. -/
def openedIds (ops : List Op) : List String :=
  (ops.map opOpened).flatten

/-- Invariant: every chat with a non-empty message list has been opened,
and the selected id (when set) has been opened. -/
def Opened (s : CState) (opened : List String) : Prop :=
  (∀ c ∈ s.chats, c.messages ≠ [] → c.id ∈ opened) ∧
  (∀ sid, s.selectedChatId = some sid → sid ∈ opened)

end Community

namespace ChatThread

/-- Local state of ChatThread.tsx: the fetched message list and the content
of the input box. -/
structure State where
  messages : List Message
  message : String
deriving Repr, DecidableEq

/-- The message-fetch `useEffect` of ChatThread.tsx: with a falsy chat id
or token it does nothing; otherwise it issues `GET /api/messages/:id` and
on success replaces the local message list; the catch branch only logs. -/
def fetchMessages (fmtTime : Option String → String) (chatId : String)
    (token : Option String) (st : State) (resp : Option (List ServerMsg)) :
    State × List Request × List Effect :=
  if chatId = "" || !jsTruthy token then (st, [], [])
  else
    match resp with
    | none => (st, [Request.listMessages chatId],
        [Effect.consoleError "Error fetching messages:"])
    | some data =>
        ({ st with messages := data.map (Community.formatMsg fmtTime) },
         [Request.listMessages chatId], [])

/-- `handleSend` of ChatThread.tsx: a blank (whitespace-only) input returns
before issuing any request; otherwise `POST /api/messages` is issued and on
success a message built from the response with `isOwn := true` is appended
to the local list and the input box is cleared; the catch branch only logs
and leaves the state unchanged. -/
def handleSend (chatId : String) (st : State) (now : String)
    (resp : Option SendResp) : State × List Request × List Effect :=
  if jsTrim st.message = "" then (st, [], [])
  else
    match resp with
    | none => (st, [Request.sendMessage chatId st.message],
        [Effect.consoleError "Error sending message:"])
    | some sent =>
        let newMessage : Message :=
          { id := toString sent.id, sender := "You", content := sent.content,
            timestamp := now, isOwn := true }
        ({ messages := st.messages ++ [newMessage], message := "" },
         [Request.sendMessage chatId st.message], [])

end ChatThread

namespace CreateGroupDialog

/-- Local state of CreateGroupDialog.tsx. -/
structure State where
  groupName : String
  selectedMembers : List String
  contacts : List User
  loading : Bool
deriving Repr, DecidableEq

/-- The user-fetch `useEffect` of CreateGroupDialog.tsx: does nothing
unless the dialog is open and the token truthy; on success the contact
list is replaced; the catch branch logs and shows a toast. -/
def fetchUsers (isOpen : Bool) (token : Option String) (st : State)
    (resp : Option (List User)) : State × List Request × List Effect :=
  if !isOpen || !jsTruthy token then (st, [], [])
  else
    match resp with
    | none => (st, [Request.authAll],
        [Effect.consoleError "Error fetching users:",
         Effect.toastError "Failed to load users."])
    | some data => ({ st with contacts := data }, [Request.authAll], [])

/-- `handleCreate` of CreateGroupDialog.tsx: a blank group name or an empty
member selection shows an error toast and returns before any request;
otherwise `POST /api/conversations/group` is issued with the trimmed name
and the numeric member ids; on success the name and selection are reset and
a success toast shown; the catch branch logs and shows a toast.  The
`loading` flag is set for the duration of the request and cleared in the
`finally` branch, so it ends up `false` whenever a request was issued. -/
def handleCreate (st : State) (resp : Option GroupResp) :
    State × List Request × List Effect :=
  if jsTrim st.groupName = "" then
    (st, [], [Effect.toastError "Please enter a group name"])
  else if st.selectedMembers = [] then
    (st, [], [Effect.toastError "Please select at least one member"])
  else
    let req := Request.createGroup (jsTrim st.groupName)
      (st.selectedMembers.map jsNumber)
    match resp with
    | none => ({ st with loading := false }, [req],
        [Effect.consoleError "Error creating group:",
         Effect.toastError "Failed to create group. Try again."])
    | some _ =>
        ({ st with groupName := "", selectedMembers := [], loading := false },
         [req], [Effect.toastSuccess "Group created successfully!"])

end CreateGroupDialog

namespace GroupInfoDrawer

/-- Member record (`Member` interface in GroupInfoDrawer.tsx).  The email
is optional in the interface; an absent value is modelled as the empty
string, matching the `|| ""` fallback in the normalisation. -/
structure Member where
  id : String
  name : String
  email : String := ""
deriving Repr, DecidableEq

/-- Group record handed to the drawer (the `Group` interface). -/
structure Group where
  id : String
  name : String
  members : List Member
deriving Repr, DecidableEq

/-- One member of the `GET /api/conversations/:id/members` response: the
code reads both a nested `user` object and top-level fields, all
optionally. -/
structure ServerMember where
  userId : Option Nat
  userName : Option String
  userEmail : Option String
  id : Option Nat
  name : Option String
  email : Option String
deriving Repr, DecidableEq

/-- The normalisation body of `fetchMembers`
(`m.user?.id?.toString() || m.id?.toString()` and the name/email
fallbacks); a member with neither id (which JavaScript would leave
`undefined`) is modelled as the empty string. -/
def normalizeMember (m : ServerMember) : Member :=
  { id := strOr (m.userId.map toString) ((m.id.map toString).getD ""),
    name := strOr m.userName (strOr m.name "Unknown"),
    email := strOr m.userEmail (strOr m.email "") }

/-- The member-fetch `useEffect` of GroupInfoDrawer.tsx: does nothing
unless a group is set and the drawer open; on success the member list is
replaced by the normalised response; the catch branch logs and shows a
toast, leaving the member list unchanged. -/
def fetchMembers (group : Option Group) (isOpen : Bool)
    (members : List Member) (resp : Option (List ServerMember)) :
    List Member × List Request × List Effect :=
  match group with
  | none => (members, [], [])
  | some g =>
    if !isOpen then (members, [], [])
    else
      match resp with
      | none => (members, [Request.listMembers g.id],
          [Effect.consoleError "Error fetching members:",
           Effect.toastError "Failed to load group members"])
      | some data => (data.map normalizeMember, [Request.listMembers g.id], [])

/-- `handleAddMembers` of GroupInfoDrawer.tsx: without a group, or when the
prompt is cancelled or empty, no request is issued; otherwise
`POST /api/conversations/:id/members` is issued and on success a
placeholder member is appended and a success toast shown; the catch branch
logs and shows a toast, leaving the member list unchanged. -/
def handleAddMembers (group : Option Group) (members : List Member)
    (promptResult : Option String) (resp : Option Unit) :
    List Member × List Request × List Effect :=
  match group with
  | none => (members, [], [])
  | some g =>
    if !jsTruthy promptResult then (members, [], [])
    else
      let nid := promptResult.getD ""
      match resp with
      | none => (members, [Request.addMembers g.id [jsNumber nid]],
          [Effect.consoleError "Error adding member:",
           Effect.toastError "Failed to add member"])
      | some _ =>
          (members ++ [{ id := nid, name := "User " ++ nid }],
           [Request.addMembers g.id [jsNumber nid]],
           [Effect.toastSuccess "Member added successfully!"])

/-- `handleRemoveMember` of GroupInfoDrawer.tsx: issues
`DELETE /api/conversations/:id/members/:memberId`; on success the member is
filtered out and a success toast shown; the catch branch logs and shows a
toast, leaving the member list unchanged. -/
def handleRemoveMember (group : Option Group) (members : List Member)
    (memberId memberName : String) (resp : Option Unit) :
    List Member × List Request × List Effect :=
  match group with
  | none => (members, [], [])
  | some g =>
    match resp with
    | none => (members, [Request.removeMember g.id memberId],
        [Effect.consoleError "Error removing member:",
         Effect.toastError "Failed to remove member"])
    | some _ =>
        (members.filter (fun m => m.id ≠ memberId),
         [Request.removeMember g.id memberId],
         [Effect.toastSuccess (memberName ++ " removed from group")])

/-- `handleLeaveGroup` of GroupInfoDrawer.tsx: first resolves the caller id
via `GET /api/auth/me`, then issues the member delete; failure of either
call lands in the same catch branch, which logs and shows a toast.  Returns
whether the drawer was closed, with the requests and effects. -/
def handleLeaveGroup (group : Option Group) (meResp : Option Nat)
    (delResp : Option Unit) : Bool × List Request × List Effect :=
  match group with
  | none => (false, [], [])
  | some g =>
    match meResp with
    | none => (false, [Request.authMe],
        [Effect.consoleError "Error leaving group:",
         Effect.toastError "Failed to leave group"])
    | some myId =>
      match delResp with
      | none => (false, [Request.authMe, Request.removeMember g.id (toString myId)],
          [Effect.consoleError "Error leaving group:",
           Effect.toastError "Failed to leave group"])
      | some _ => (true, [Request.authMe, Request.removeMember g.id (toString myId)],
          [Effect.toastSuccess "You left the group"])

/-- `handleDeleteGroup` of GroupInfoDrawer.tsx: issues
`DELETE /api/conversations/:id`; on success a toast is shown and the drawer
closed; the catch branch logs and shows a toast. -/
def handleDeleteGroup (group : Option Group) (resp : Option Unit) :
    Bool × List Request × List Effect :=
  match group with
  | none => (false, [], [])
  | some g =>
    match resp with
    | none => (false, [Request.deleteConversation g.id],
        [Effect.consoleError "Error deleting group:",
         Effect.toastError "Failed to delete group"])
    | some _ => (true, [Request.deleteConversation g.id],
        [Effect.toastSuccess "Group deleted successfully"])

end GroupInfoDrawer

/-- C1: for every chat id and every content string whose trim is empty,
both send-message operations (Community.handleSendMessage and
ChatThread.handleSend) return without issuing any HTTP request and leave
the chat state unchanged, and a request is issued only when the trimmed
content is non-empty. -/
theorem send_blank_content_no_request
    (chats : List Chat) (chatId content now : String) (resp : Option SendResp)
    (msgs : List Message) (cid now2 : String) (resp2 : Option SendResp)
    (h : jsTrim content = "") :
    Community.handleSendMessage chats chatId content now resp = (chats, [], [])
    ∧ ChatThread.handleSend cid ⟨msgs, content⟩ now2 resp2 = (⟨msgs, content⟩, [], [])
    ∧ (∀ content2 resp3,
        (Community.handleSendMessage chats chatId content2 now resp3).2.1 ≠ [] →
        jsTrim content2 ≠ "") := by
  refine ⟨?_, ?_, ?_⟩
  · simp [Community.handleSendMessage, h]
  · simp [ChatThread.handleSend, h]
  · intro content2 resp3 hreq
    intro hblank
    simp [Community.handleSendMessage, hblank] at hreq

/-- Witness for C1 at a whitespace-only content. -/
theorem send_blank_content_no_request_witness :
    jsTrim "  " = ""
    ∧ (Community.handleSendMessage [] "1" "  " "t" none = ([], [], [])
      ∧ ChatThread.handleSend "1" ⟨[], "  "⟩ "t" none = (⟨[], "  "⟩, [], [])
      ∧ (∀ content2 resp3,
          (Community.handleSendMessage [] "1" content2 "t" resp3).2.1 ≠ [] →
          jsTrim content2 ≠ "")) :=
  ⟨by decide,
   send_blank_content_no_request [] "1" "  " "t" none [] "1" "t" none (by decide)⟩

/-- C5: when the selected-member list is empty or the trimmed group name is
empty, the create operation of the group-creation dialog returns before
issuing any HTTP request, shows an error notice, and leaves the dialog
state unchanged; the request is issued only when the trimmed name is
non-empty and at least one member is selected. -/
theorem createGroup_guard_no_request
    (st : CreateGroupDialog.State) (resp : Option GroupResp)
    (h : st.selectedMembers = [] ∨ jsTrim st.groupName = "") :
    (CreateGroupDialog.handleCreate st resp).1 = st
    ∧ (CreateGroupDialog.handleCreate st resp).2.1 = []
    ∧ (∃ m, Effect.toastError m ∈ (CreateGroupDialog.handleCreate st resp).2.2)
    ∧ (∀ st2 : CreateGroupDialog.State,
        (CreateGroupDialog.handleCreate st2 resp).2.1 ≠ [] →
        jsTrim st2.groupName ≠ "" ∧ st2.selectedMembers ≠ []) := by
  have main : (CreateGroupDialog.handleCreate st resp).1 = st
      ∧ (CreateGroupDialog.handleCreate st resp).2.1 = []
      ∧ ∃ m, Effect.toastError m ∈ (CreateGroupDialog.handleCreate st resp).2.2 := by
    by_cases hn : jsTrim st.groupName = ""
    · simp [CreateGroupDialog.handleCreate, hn]
    · rcases h with hm | hn2
      · simp [CreateGroupDialog.handleCreate, hn, hm]
      · exact absurd hn2 hn
  refine ⟨main.1, main.2.1, main.2.2, ?_⟩
  intro st2 hreq
  constructor
  · intro hn
    simp [CreateGroupDialog.handleCreate, hn] at hreq
  · intro hm
    by_cases hn : jsTrim st2.groupName = "" <;>
      simp [CreateGroupDialog.handleCreate, hn, hm] at hreq

/-- Witness for C5 at an empty member selection. -/
theorem createGroup_guard_no_request_witness :
    (([] : List String) = [] ∨ jsTrim "trip" = "")
    ∧ ((CreateGroupDialog.handleCreate ⟨"trip", [], [], false⟩ none).1
        = ⟨"trip", [], [], false⟩
      ∧ (CreateGroupDialog.handleCreate ⟨"trip", [], [], false⟩ none).2.1 = []
      ∧ (∃ m, Effect.toastError m
          ∈ (CreateGroupDialog.handleCreate ⟨"trip", [], [], false⟩ none).2.2)
      ∧ (∀ st2 : CreateGroupDialog.State,
          (CreateGroupDialog.handleCreate st2 none).2.1 ≠ [] →
          jsTrim st2.groupName ≠ "" ∧ st2.selectedMembers ≠ [])) :=
  ⟨Or.inl rfl, createGroup_guard_no_request ⟨"trip", [], [], false⟩ none (Or.inl rfl)⟩

/-- C7: on mount, with a falsy stored credential or a failing session
verification, the component navigates to the login view and fetches
neither the conversation list nor the user directory; only when
verification succeeds are both fetched, and then no navigation happens. -/
theorem mount_session_gate (token : Option String) (authOk : Bool) :
    ((jsTruthy token = false ∨ authOk = false) →
      Effect.navigate "/login" ∈ (Community.mount token authOk).2
      ∧ Request.listConversations ∉ (Community.mount token authOk).1
      ∧ Request.authAll ∉ (Community.mount token authOk).1)
    ∧ (jsTruthy token = true → authOk = true →
      Community.mount token authOk
        = ([Request.authMe, Request.listConversations, Request.authAll], [])) := by
  by_cases ht : jsTruthy token <;> cases authOk <;>
    simp [Community.mount, ht]

/-- Witness for C7 at a missing token and at a successful verification. -/
theorem mount_session_gate_witness :
    ((jsTruthy none = false ∨ false = false) →
      Effect.navigate "/login" ∈ (Community.mount none false).2
      ∧ Request.listConversations ∉ (Community.mount none false).1
      ∧ Request.authAll ∉ (Community.mount none false).1)
    ∧ ((jsTruthy none = true → false = true →
        Community.mount none false
          = ([Request.authMe, Request.listConversations, Request.authAll], []))
      ∧ (jsTruthy (some "tok") = true → true = true →
        Community.mount (some "tok") true
          = ([Request.authMe, Request.listConversations, Request.authAll], []))) :=
  ⟨(mount_session_gate none false).1,
   (mount_session_gate none false).2,
   (mount_session_gate (some "tok") true).2⟩

/-- Mapping a function that fixes every element of a list is the
identity. -/
theorem map_id_on {α : Type} (f : α → α) :
    ∀ l : List α, (∀ a ∈ l, f a = a) → l.map f = l
  | [], _ => rfl
  | a :: l, h => by
    rw [List.map_cons, h a (List.mem_cons_self a l),
      map_id_on f l (fun b hb => h b (List.mem_cons_of_mem a hb))]

/-- Frame relation of the favorite toggle: every field except isFavorite is
preserved, the flag of non-matching entries is preserved, and the flag of
matching entries is negated when the id is truthy. -/
def ToggleFrame (cid : String) (c c2 : Chat) : Prop :=
  c2.id = c.id ∧ c2.name = c.name ∧ c2.isGroup = c.isGroup ∧
  c2.unread = c.unread ∧ c2.timestamp = c.timestamp ∧
  c2.members = c.members ∧ c2.messages = c.messages ∧
  c2.type = c.type ∧
  (c.id ≠ cid → c2.isFavorite = c.isFavorite) ∧
  (cid ≠ "" → c.id = cid → c2.isFavorite = !c.isFavorite)

/-- C10: toggling favorite with an undefined (falsy) chat id, or an id not
present in the list, leaves the chat list unchanged; with a present id it
changes only the isFavorite flag of the matching entries, leaving every
other entry and every other field unchanged, and negates the flag of the
matching entries when the id is truthy. -/
theorem toggleFavorite_frame (chats : List Chat) (chatId : Option String) :
    (jsTruthy chatId = false → Community.handleToggleFavorite chats chatId = chats)
    ∧ (∀ cid, chatId = some cid → cid ∉ chats.map Chat.id →
        Community.handleToggleFavorite chats chatId = chats)
    ∧ (∀ cid, chatId = some cid →
        List.Forall₂ (ToggleFrame cid)
          chats (Community.handleToggleFavorite chats chatId)) := by
  refine ⟨?_, ?_, ?_⟩
  · intro hf
    cases chatId with
    | none => rfl
    | some cid =>
      simp [jsTruthy] at hf
      simp [Community.handleToggleFavorite, hf]
  · rintro cid rfl hmem
    by_cases hb : cid = ""
    · simp [Community.handleToggleFavorite, hb]
    · have hne : ∀ c ∈ chats, c.id ≠ cid := by
        intro c hc heq
        exact hmem (List.mem_map.mpr ⟨c, hc, heq⟩)
      simp only [Community.handleToggleFavorite, if_neg hb]
      apply map_id_on
      intro c hc
      simp [hne c hc]
  · rintro cid rfl
    by_cases hb : cid = ""
    · subst hb
      have hunch : Community.handleToggleFavorite chats (some "") = chats := by
        simp [Community.handleToggleFavorite]
      rw [hunch, List.forall₂_same]
      intro c _
      simp [ToggleFrame]
    · simp only [Community.handleToggleFavorite, if_neg hb]
      rw [List.forall₂_map_right_iff, List.forall₂_same]
      intro c _
      by_cases hid : c.id = cid <;> simp [ToggleFrame, hid, hb]

/-- Witness for C10 at an absent id, a missing id, and a present id. -/
theorem toggleFavorite_frame_witness :
    (jsTruthy (some "2") = false →
      Community.handleToggleFavorite
        [{ id := "1", name := "a", isGroup := false, isFavorite := false,
           unread := 0, timestamp := "", members := [], messages := [] }]
        (some "2")
      = [{ id := "1", name := "a", isGroup := false, isFavorite := false,
           unread := 0, timestamp := "", members := [], messages := [] }])
    ∧ (∀ cid, (some "2" : Option String) = some cid →
        cid ∉ ([{ id := "1", name := "a", isGroup := false, isFavorite := false,
                  unread := 0, timestamp := "", members := [], messages := [] }]
                : List Chat).map Chat.id →
        Community.handleToggleFavorite
          [{ id := "1", name := "a", isGroup := false, isFavorite := false,
             unread := 0, timestamp := "", members := [], messages := [] }]
          (some "2")
        = [{ id := "1", name := "a", isGroup := false, isFavorite := false,
             unread := 0, timestamp := "", members := [], messages := [] }])
    ∧ (∀ cid, (some "2" : Option String) = some cid →
        List.Forall₂ (ToggleFrame cid)
          [{ id := "1", name := "a", isGroup := false, isFavorite := false,
             unread := 0, timestamp := "", members := [], messages := [] }]
          (Community.handleToggleFavorite
            [{ id := "1", name := "a", isGroup := false, isFavorite := false,
               unread := 0, timestamp := "", members := [], messages := [] }]
            (some "2"))) :=
  toggleFavorite_frame
    [{ id := "1", name := "a", isGroup := false, isFavorite := false,
       unread := 0, timestamp := "", members := [], messages := [] }]
    (some "2")

/-- C2: with non-empty trimmed content and a successful send, the matching
chat of the Community list gets exactly one message appended at the end
with the isOwn flag true and no other field changed, every other chat is
unchanged, and the thread-local list of ChatThread.handleSend likewise gets
exactly one own message appended. -/
theorem send_success_appends_own
    (chats : List Chat) (chatId content now : String) (r : SendResp)
    (msgs : List Message) (cid now2 : String) (r2 : SendResp)
    (h : jsTrim content ≠ "") :
    List.Forall₂ (fun c c2 =>
        if c.id = chatId
        then ∃ m : Message, m.isOwn = true
          ∧ c2 = { c with messages := c.messages ++ [m] }
        else c2 = c)
      chats (Community.handleSendMessage chats chatId content now (some r)).1
    ∧ ∃ m2 : Message, m2.isOwn = true
      ∧ (ChatThread.handleSend cid ⟨msgs, content⟩ now2 (some r2)).1.messages
          = msgs ++ [m2] := by
  constructor
  · simp only [Community.handleSendMessage, if_neg h]
    rw [List.forall₂_map_right_iff, List.forall₂_same]
    intro c _
    by_cases hid : c.id = chatId
    · simp only [hid, if_pos rfl, if_true]
      exact ⟨_, rfl, rfl⟩
    · simp [hid]
  · refine ⟨{ id := toString r2.id, sender := "You", content := r2.content,
               timestamp := now2, isOwn := true }, rfl, ?_⟩
    simp [ChatThread.handleSend, h]

/-- Witness for C2 at a one-chat list and concrete responses. -/
theorem send_success_appends_own_witness :
    jsTrim "hello" ≠ ""
    ∧ (List.Forall₂ (fun c c2 =>
        if c.id = "1"
        then ∃ m : Message, m.isOwn = true
          ∧ c2 = { c with messages := c.messages ++ [m] }
        else c2 = c)
      [{ id := "1", name := "a", isGroup := false, isFavorite := false,
         unread := 0, timestamp := "", members := [], messages := [] }]
      (Community.handleSendMessage
        [{ id := "1", name := "a", isGroup := false, isFavorite := false,
           unread := 0, timestamp := "", members := [], messages := [] }]
        "1" "hello" "t" (some ⟨7, "hello"⟩)).1
    ∧ ∃ m2 : Message, m2.isOwn = true
      ∧ (ChatThread.handleSend "1" ⟨[], "hello"⟩ "t" (some ⟨7, "hello"⟩)).1.messages
          = [] ++ [m2]) :=
  ⟨by decide,
   send_success_appends_own
     [{ id := "1", name := "a", isGroup := false, isFavorite := false,
        unread := 0, timestamp := "", members := [], messages := [] }]
     "1" "hello" "t" ⟨7, "hello"⟩ [] "1" "t" ⟨7, "hello"⟩ (by decide)⟩

/-- C3: when opening a direct chat succeeds, the returned id becomes the
selected chat; if that id already occurs in the loaded list the list is
unchanged, otherwise exactly one new non-group entry with that id is
prepended. -/
theorem openDm_no_duplicate
    (chats : List Chat) (sel : Option String) (user : User) (now : String)
    (r : DmResp) :
    (Community.handleOpenDm chats sel user now (some r)).2.1
      = some (toString r.id)
    ∧ (toString r.id ∈ chats.map Chat.id →
        (Community.handleOpenDm chats sel user now (some r)).1 = chats)
    ∧ (toString r.id ∉ chats.map Chat.id →
        ∃ entry : Chat, entry.id = toString r.id ∧ entry.isGroup = false
          ∧ (Community.handleOpenDm chats sel user now (some r)).1
              = entry :: chats) := by
  refine ⟨rfl, ?_, ?_⟩
  · intro hmem
    have hany : (chats.any fun c => c.id = toString r.id) = true := by
      rw [List.any_eq_true]
      rcases List.mem_map.mp hmem with ⟨c, hc, hid⟩
      exact ⟨c, hc, by simp [hid]⟩
    simp [Community.handleOpenDm, hany]
  · intro hmem
    have hany : (chats.any fun c => c.id = toString r.id) = false := by
      rw [List.any_eq_false]
      intro c hc
      simp only [decide_eq_true_eq]
      intro hid
      exact hmem (List.mem_map.mpr ⟨c, hc, hid⟩)
    refine ⟨{ id := toString r.id, name := user.name, isGroup := false,
               isFavorite := false, unread := 0, timestamp := now,
               members := [user], messages := [], type := some "USER" },
      rfl, rfl, ?_⟩
    simp [Community.handleOpenDm, hany]

/-- Witness for C3: the id 5 is already present in one list and absent from
another. -/
theorem openDm_no_duplicate_witness :
    ((toString (5 : Nat) ∈ ([{ id := "5", name := "a", isGroup := false,
                               isFavorite := false, unread := 0,
                               timestamp := "", members := [],
                               messages := [] }] : List Chat).map Chat.id →
        (Community.handleOpenDm
          [{ id := "5", name := "a", isGroup := false, isFavorite := false,
             unread := 0, timestamp := "", members := [], messages := [] }]
          none ⟨"9", "u", "u@x", none⟩ "t" (some ⟨5⟩)).1
        = [{ id := "5", name := "a", isGroup := false, isFavorite := false,
             unread := 0, timestamp := "", members := [], messages := [] }]))
    ∧ (toString (5 : Nat) ∉ (([] : List Chat)).map Chat.id →
        ∃ entry : Chat, entry.id = toString (5 : Nat) ∧ entry.isGroup = false
          ∧ (Community.handleOpenDm [] none ⟨"9", "u", "u@x", none⟩ "t"
              (some ⟨5⟩)).1 = entry :: []) :=
  ⟨(openDm_no_duplicate
      [{ id := "5", name := "a", isGroup := false, isFavorite := false,
         unread := 0, timestamp := "", members := [], messages := [] }]
      none ⟨"9", "u", "u@x", none⟩ "t" ⟨5⟩).2.1,
   (openDm_no_duplicate [] none ⟨"9", "u", "u@x", none⟩ "t" ⟨5⟩).2.2⟩

/-- C4: toggling favorite twice with the same present id restores the chat
list, and after any successful reload of the conversation list every
loaded conversation has the favorite flag false (the flag is never sent to
the server: the reload request carries no favorite data). -/
theorem toggleFavorite_involution_not_persisted
    (chats : List Chat) (cid : String) (_hmem : cid ∈ chats.map Chat.id)
    (fmtTime : Option String → String) (old : List Chat)
    (data : List ServerConv) :
    Community.handleToggleFavorite
      (Community.handleToggleFavorite chats (some cid)) (some cid) = chats
    ∧ ∀ c ∈ (Community.fetchConversations fmtTime old (some data)).1,
        c.isFavorite = false := by
  constructor
  · by_cases hb : cid = ""
    · simp [Community.handleToggleFavorite, hb]
    · simp only [Community.handleToggleFavorite, if_neg hb, List.map_map]
      apply map_id_on
      intro c _
      rcases c with ⟨cId, cName, cIsGroup, cIsFav, cUnread, cTs, cMembers, cMsgs, cType⟩
      by_cases hid : cId = cid <;> simp [Function.comp, hid]
  · intro c hc
    simp only [Community.fetchConversations, List.mem_map] at hc
    rcases hc with ⟨conv, _, rfl⟩
    rfl

/-- Witness for C4 at a present id and a concrete reload payload. -/
theorem toggleFavorite_involution_not_persisted_witness :
    "1" ∈ ([{ id := "1", name := "a", isGroup := false, isFavorite := true,
               unread := 0, timestamp := "", members := [], messages := [] }]
        : List Chat).map Chat.id
    ∧ (Community.handleToggleFavorite
        (Community.handleToggleFavorite
          [{ id := "1", name := "a", isGroup := false, isFavorite := true,
             unread := 0, timestamp := "", members := [], messages := [] }]
          (some "1")) (some "1")
      = [{ id := "1", name := "a", isGroup := false, isFavorite := true,
           unread := 0, timestamp := "", members := [], messages := [] }]
      ∧ ∀ c ∈ (Community.fetchConversations (fun _ => "t") []
          (some [{ id := 3, name := some "g", dmName := none, type := "GROUP",
                   updatedAt := none, members := none }])).1,
          c.isFavorite = false) :=
  ⟨by decide,
   toggleFavorite_involution_not_persisted
     [{ id := "1", name := "a", isGroup := false, isFavorite := true,
        unread := 0, timestamp := "", members := [], messages := [] }]
     "1" (by decide) (fun _ => "t") []
     [{ id := 3, name := some "g", dmName := none, type := "GROUP",
        updatedAt := none, members := none }]⟩

/-- C6 counterexample: the failing message send logs to the console but
shows no user-facing transient notice, contradicting the claim that every
listed API operation shows one on a non-success response. -/
theorem sendMessage_error_no_toast :
    (Community.handleSendMessage [] "1" "hi" "t" none).2.1
      = [Request.sendMessage "1" "hi"]
    ∧ (Community.handleSendMessage [] "1" "hi" "t" none).2.2
      = [Effect.consoleError "Error sending message:"]
    ∧ ((Community.handleSendMessage [] "1" "hi" "t" none).2.2.any
        Effect.isToast) = false := by
  decide

/-- C6 amended: on a non-success response every modelled API operation
logs the failure and leaves the UI state (chat list, message lists, member
lists, selection, dialog fields) unchanged by the error branch; the group-,
member- and DM-related calls additionally show a transient notice, while
the conversation-list, user-directory (Community), message-list and
message-send calls only log. -/
theorem error_branches_log_and_preserve_state
    (fmtTime : Option String → String)
    (chats : List Chat) (users : List User)
    (sid : String) (hsid : sid ≠ "")
    (chatId content now : String) (hcontent : jsTrim content ≠ "")
    (tst : ChatThread.State) (tcid : String) (htcid : tcid ≠ "")
    (token : Option String) (htoken : jsTruthy token = true)
    (htmsg : jsTrim tst.message ≠ "")
    (showFlag : Bool) (gname : String) (memberIds : List Nat)
    (sel : Option String) (user : User)
    (dst : CreateGroupDialog.State) (hdname : jsTrim dst.groupName ≠ "")
    (hdmem : dst.selectedMembers ≠ [])
    (g : GroupInfoDrawer.Group) (members : List GroupInfoDrawer.Member)
    (nid : String) (hnid : nid ≠ "") (memberId memberName : String)
    (myId : Nat) :
    ((Community.fetchConversations fmtTime chats none).1 = chats
      ∧ (Community.fetchConversations fmtTime chats none).2.2.any Effect.isLog = true
      ∧ (Community.fetchConversations fmtTime chats none).2.2.any Effect.isToast = false)
    ∧ ((Community.fetchAllUsers users none).1 = users
      ∧ (Community.fetchAllUsers users none).2.2.any Effect.isLog = true
      ∧ (Community.fetchAllUsers users none).2.2.any Effect.isToast = false)
    ∧ ((Community.fetchMessages fmtTime chats (some sid) none).1 = chats
      ∧ (Community.fetchMessages fmtTime chats (some sid) none).2.2.any Effect.isLog = true
      ∧ (Community.fetchMessages fmtTime chats (some sid) none).2.2.any Effect.isToast = false)
    ∧ ((Community.handleSendMessage chats chatId content now none).1 = chats
      ∧ (Community.handleSendMessage chats chatId content now none).2.2.any Effect.isLog = true
      ∧ (Community.handleSendMessage chats chatId content now none).2.2.any Effect.isToast = false)
    ∧ ((ChatThread.fetchMessages fmtTime tcid token tst none).1 = tst
      ∧ (ChatThread.fetchMessages fmtTime tcid token tst none).2.2.any Effect.isLog = true
      ∧ (ChatThread.fetchMessages fmtTime tcid token tst none).2.2.any Effect.isToast = false)
    ∧ ((ChatThread.handleSend tcid tst now none).1 = tst
      ∧ (ChatThread.handleSend tcid tst now none).2.2.any Effect.isLog = true
      ∧ (ChatThread.handleSend tcid tst now none).2.2.any Effect.isToast = false)
    ∧ ((Community.handleCreateGroup chats showFlag gname memberIds now none).1 = chats
      ∧ (Community.handleCreateGroup chats showFlag gname memberIds now none).2.1 = showFlag
      ∧ (Community.handleCreateGroup chats showFlag gname memberIds now none).2.2.2.any Effect.isLog = true
      ∧ (Community.handleCreateGroup chats showFlag gname memberIds now none).2.2.2.any Effect.isToast = true)
    ∧ ((Community.handleOpenDm chats sel user now none).1 = chats
      ∧ (Community.handleOpenDm chats sel user now none).2.1 = sel
      ∧ (Community.handleOpenDm chats sel user now none).2.2.2.any Effect.isLog = true
      ∧ (Community.handleOpenDm chats sel user now none).2.2.2.any Effect.isToast = true)
    ∧ ((CreateGroupDialog.fetchUsers true token dst none).1 = dst
      ∧ (CreateGroupDialog.fetchUsers true token dst none).2.2.any Effect.isLog = true
      ∧ (CreateGroupDialog.fetchUsers true token dst none).2.2.any Effect.isToast = true)
    ∧ ((CreateGroupDialog.handleCreate dst none).1.groupName = dst.groupName
      ∧ (CreateGroupDialog.handleCreate dst none).1.selectedMembers = dst.selectedMembers
      ∧ (CreateGroupDialog.handleCreate dst none).1.contacts = dst.contacts
      ∧ (CreateGroupDialog.handleCreate dst none).2.2.any Effect.isLog = true
      ∧ (CreateGroupDialog.handleCreate dst none).2.2.any Effect.isToast = true)
    ∧ ((GroupInfoDrawer.fetchMembers (some g) true members none).1 = members
      ∧ (GroupInfoDrawer.fetchMembers (some g) true members none).2.2.any Effect.isLog = true
      ∧ (GroupInfoDrawer.fetchMembers (some g) true members none).2.2.any Effect.isToast = true)
    ∧ ((GroupInfoDrawer.handleAddMembers (some g) members (some nid) none).1 = members
      ∧ (GroupInfoDrawer.handleAddMembers (some g) members (some nid) none).2.2.any Effect.isLog = true
      ∧ (GroupInfoDrawer.handleAddMembers (some g) members (some nid) none).2.2.any Effect.isToast = true)
    ∧ ((GroupInfoDrawer.handleRemoveMember (some g) members memberId memberName none).1 = members
      ∧ (GroupInfoDrawer.handleRemoveMember (some g) members memberId memberName none).2.2.any Effect.isLog = true
      ∧ (GroupInfoDrawer.handleRemoveMember (some g) members memberId memberName none).2.2.any Effect.isToast = true)
    ∧ ((GroupInfoDrawer.handleLeaveGroup (some g) none none).1 = false
      ∧ (GroupInfoDrawer.handleLeaveGroup (some g) none none).2.2.any Effect.isLog = true
      ∧ (GroupInfoDrawer.handleLeaveGroup (some g) none none).2.2.any Effect.isToast = true
      ∧ (GroupInfoDrawer.handleLeaveGroup (some g) (some myId) none).1 = false
      ∧ (GroupInfoDrawer.handleLeaveGroup (some g) (some myId) none).2.2.any Effect.isLog = true
      ∧ (GroupInfoDrawer.handleLeaveGroup (some g) (some myId) none).2.2.any Effect.isToast = true)
    ∧ ((GroupInfoDrawer.handleDeleteGroup (some g) none).1 = false
      ∧ (GroupInfoDrawer.handleDeleteGroup (some g) none).2.2.any Effect.isLog = true
      ∧ (GroupInfoDrawer.handleDeleteGroup (some g) none).2.2.any Effect.isToast = true) := by
  refine ⟨?_, ?_, ?_, ?_, ?_, ?_, ?_, ?_, ?_, ?_, ?_, ?_, ?_, ?_, ?_⟩
  · simp [Community.fetchConversations, Effect.isLog, Effect.isToast]
  · simp [Community.fetchAllUsers, Effect.isLog, Effect.isToast]
  · simp [Community.fetchMessages, hsid, Effect.isLog, Effect.isToast]
  · simp [Community.handleSendMessage, hcontent, Effect.isLog, Effect.isToast]
  · simp [ChatThread.fetchMessages, htcid, htoken, Effect.isLog, Effect.isToast]
  · simp [ChatThread.handleSend, htmsg, Effect.isLog, Effect.isToast]
  · simp [Community.handleCreateGroup, Effect.isLog, Effect.isToast]
  · simp [Community.handleOpenDm, Effect.isLog, Effect.isToast]
  · simp [CreateGroupDialog.fetchUsers, htoken, Effect.isLog, Effect.isToast]
  · simp [CreateGroupDialog.handleCreate, hdname, hdmem, Effect.isLog, Effect.isToast]
  · simp [GroupInfoDrawer.fetchMembers, Effect.isLog, Effect.isToast]
  · simp [GroupInfoDrawer.handleAddMembers, jsTruthy, hnid, Effect.isLog, Effect.isToast]
  · simp [GroupInfoDrawer.handleRemoveMember, Effect.isLog, Effect.isToast]
  · simp [GroupInfoDrawer.handleLeaveGroup, Effect.isLog, Effect.isToast]
  · simp [GroupInfoDrawer.handleDeleteGroup, Effect.isLog, Effect.isToast]

/-- Witness for the amended C6 at concrete states and failing responses. -/
theorem error_branches_log_and_preserve_state_witness :
    (("5" : String) ≠ "" ∧ jsTrim "hi" ≠ "" ∧ ("7" : String) ≠ ""
      ∧ jsTruthy (some "tok") = true ∧ jsTrim "hey" ≠ ""
      ∧ jsTrim "trip" ≠ "" ∧ (["3"] : List String) ≠ [] ∧ ("4" : String) ≠ "")
    ∧ ((Community.fetchConversations (fun _ => "t") [] none).1 = []
      ∧ (Community.fetchConversations (fun _ => "t") [] none).2.2.any Effect.isLog = true
      ∧ (Community.fetchConversations (fun _ => "t") [] none).2.2.any Effect.isToast = false) := by
  have h := error_branches_log_and_preserve_state (fun _ => "t") [] [] "5"
    (by decide) "1" "hi" "t" (by decide) ⟨[], "hey"⟩ "7" (by decide)
    (some "tok") (by decide) (by decide) true "g" [] none
    ⟨"9", "u", "u@x", none⟩ ⟨"trip", ["3"], [], false⟩ (by decide) (by decide)
    ⟨"2", "grp", []⟩ [] "4" (by decide) "6" "Bob" 11
  exact ⟨⟨by decide, by decide, by decide, by decide, by decide, by decide,
    by decide, by decide⟩, h.1⟩

/-- C9 counterexample: group creation prepends the response group without
checking for its id, so a creation response whose single id (trivially
duplicate-free) already occurs in the loaded list breaks id uniqueness. -/
theorem createGroup_breaks_uniqueness :
    (([{ id := "1", name := "a", isGroup := false, isFavorite := false,
          unread := 0, timestamp := "", members := [], messages := [] }]
        : List Chat).map Chat.id).Nodup
    ∧ ¬ (((Community.handleCreateGroup
          [{ id := "1", name := "a", isGroup := false, isFavorite := false,
             unread := 0, timestamp := "", members := [], messages := [] }]
          true "g" [] "t"
          (some { id := 1, name := "g", members := some [] })).1.map
            Chat.id).Nodup) := by
  decide

/-- C9 amended: toggling favorite, sending a message, opening a direct
chat, and reloading the conversation list (when the response itself has no
duplicate ids) preserve uniqueness of chat ids; group creation preserves it
only under the additional assumption that the created group id does not
already occur in the list. -/
theorem chat_id_uniqueness_preserved
    (fmtTime : Option String → String)
    (chats : List Chat) (h : (chats.map Chat.id).Nodup)
    (cid : Option String) (chatId content now : String)
    (resp : Option SendResp) (sel : Option String) (user : User)
    (dm : Option DmResp) (showFlag : Bool) (gname : String)
    (memberIds : List Nat) (g : GroupResp) (data : List ServerConv) :
    ((Community.handleToggleFavorite chats cid).map Chat.id).Nodup
    ∧ ((Community.handleSendMessage chats chatId content now resp).1.map
        Chat.id).Nodup
    ∧ ((data.map (fun c => toString c.id)).Nodup →
        ((Community.fetchConversations fmtTime chats (some data)).1.map
          Chat.id).Nodup)
    ∧ ((Community.handleOpenDm chats sel user now dm).1.map Chat.id).Nodup
    ∧ (toString g.id ∉ chats.map Chat.id →
        ((Community.handleCreateGroup chats showFlag gname memberIds now
          (some g)).1.map Chat.id).Nodup) := by
  have hpres : ∀ f : Chat → Chat, (∀ c, (f c).id = c.id) →
      ((chats.map f).map Chat.id).Nodup := by
    intro f hf
    rw [List.map_map]
    have : Chat.id ∘ f = Chat.id := by
      funext c
      exact hf c
    rw [this]
    exact h
  refine ⟨?_, ?_, ?_, ?_, ?_⟩
  · cases cid with
    | none => exact h
    | some c =>
      by_cases hb : c = ""
      · simp only [Community.handleToggleFavorite, if_pos hb]
        exact h
      · simp only [Community.handleToggleFavorite, if_neg hb]
        exact hpres _ (fun c => by by_cases hid : c.id = ‹String› <;> simp [hid])
  · cases resp with
    | none =>
      by_cases hc : jsTrim content = "" <;>
        simp [Community.handleSendMessage, hc, h]
    | some r =>
      by_cases hc : jsTrim content = ""
      · simp [Community.handleSendMessage, hc, h]
      · simp only [Community.handleSendMessage, if_neg hc]
        exact hpres _ (fun c => by by_cases hid : c.id = chatId <;> simp [hid])
  · intro hdata
    simp only [Community.fetchConversations, List.map_map]
    have : Chat.id ∘ Community.formatConv fmtTime
        = fun c : ServerConv => toString c.id := by
      funext c
      rfl
    rw [this]
    exact hdata
  · cases dm with
    | none => exact h
    | some r =>
      by_cases hany : (chats.any fun c => c.id = toString r.id) = true
      · simp [Community.handleOpenDm, hany, h]
      · have hnotmem : toString r.id ∉ chats.map Chat.id := by
          intro hmem2
          rcases List.mem_map.mp hmem2 with ⟨c, hc, hcid⟩
          exact hany (List.any_eq_true.mpr ⟨c, hc, by simp [hcid]⟩)
        simp only [Community.handleOpenDm]
        rw [if_neg hany]
        simp only [List.map_cons, List.nodup_cons]
        exact ⟨hnotmem, h⟩
  · intro hfresh
    simp only [Community.handleCreateGroup, List.map_cons, List.nodup_cons]
    exact ⟨hfresh, h⟩

/-- Witness for the amended C9 at a two-chat list with distinct ids. -/
theorem chat_id_uniqueness_preserved_witness :
    (([{ id := "1", name := "a", isGroup := false, isFavorite := false,
          unread := 0, timestamp := "", members := [], messages := [] },
        { id := "2", name := "b", isGroup := true, isFavorite := false,
          unread := 0, timestamp := "", members := [], messages := [] }]
        : List Chat).map Chat.id).Nodup
    ∧ ((Community.handleToggleFavorite
        [{ id := "1", name := "a", isGroup := false, isFavorite := false,
           unread := 0, timestamp := "", members := [], messages := [] },
         { id := "2", name := "b", isGroup := true, isFavorite := false,
           unread := 0, timestamp := "", members := [], messages := [] }]
        (some "1")).map Chat.id).Nodup := by
  have h := chat_id_uniqueness_preserved (fun _ => "t")
    [{ id := "1", name := "a", isGroup := false, isFavorite := false,
       unread := 0, timestamp := "", members := [], messages := [] },
     { id := "2", name := "b", isGroup := true, isFavorite := false,
       unread := 0, timestamp := "", members := [], messages := [] }]
    (by decide) (some "1") "1" "hi" "t" none none ⟨"9", "u", "u@x", none⟩
    none true "g" [] ⟨3, "g", some []⟩ []
  exact ⟨by decide, h.1⟩

/-- The Opened invariant is monotone in the opened-id set. -/
theorem opened_mono {s : Community.CState} {o1 o2 : List String}
    (hsub : ∀ x ∈ o1, x ∈ o2) (h : Community.Opened s o1) :
    Community.Opened s o2 :=
  ⟨fun c hc hne => hsub _ (h.1 c hc hne), fun sid hs => hsub _ (h.2 sid hs)⟩

/-- One step preserves the Opened invariant when the ids the operation
opens are appended to the opened set. -/
theorem opened_step (fmtTime : Option String → String)
    (s : Community.CState) (op : Community.Op) (opened : List String)
    (h : Community.Opened s opened) :
    Community.Opened (Community.step fmtTime s op)
      (opened ++ Community.opOpened op) := by
  obtain ⟨h1, h2⟩ := h
  cases op with
  | fetchConvs resp =>
    cases resp with
    | none =>
      exact ⟨fun c hc hne => List.mem_append_left _ (h1 c hc hne),
        fun sid hs => List.mem_append_left _ (h2 sid hs)⟩
    | some data =>
      refine ⟨?_, fun sid hs => List.mem_append_left _ (h2 sid hs)⟩
      intro c hc hne
      exfalso
      apply hne
      simp only [Community.step, Community.fetchConversations] at hc
      rcases List.mem_map.mp hc with ⟨conv, _, rfl⟩
      rfl
  | createGroup showFlag gname memberIds now resp =>
    cases resp with
    | none =>
      exact ⟨fun c hc hne => List.mem_append_left _ (h1 c hc hne),
        fun sid hs => List.mem_append_left _ (h2 sid hs)⟩
    | some g =>
      refine ⟨?_, fun sid hs => List.mem_append_left _ (h2 sid hs)⟩
      intro c hc hne
      simp only [Community.step, Community.handleCreateGroup,
        List.mem_cons] at hc
      rcases hc with rfl | hc
      · exact absurd rfl hne
      · exact List.mem_append_left _ (h1 c hc hne)
  | openDm user now resp =>
    cases resp with
    | none =>
      exact ⟨fun c hc hne => List.mem_append_left _ (h1 c hc hne),
        fun sid hs => List.mem_append_left _ (h2 sid hs)⟩
    | some r =>
      constructor
      · intro c hc hne
        simp only [Community.step, Community.handleOpenDm] at hc
        by_cases hany : (s.chats.any fun c => c.id = toString r.id) = true
        · rw [if_pos hany] at hc
          exact List.mem_append_left _ (h1 c hc hne)
        · rw [if_neg hany] at hc
          rcases List.mem_cons.mp hc with rfl | hc
          · exact absurd rfl hne
          · exact List.mem_append_left _ (h1 c hc hne)
      · intro sid hs
        simp only [Community.step, Community.handleOpenDm,
          Option.some.injEq] at hs
        subst hs
        exact List.mem_append_right _ (by
          simp [Community.opOpened])
  | toggleFav chatId =>
    refine ⟨?_, fun sid hs => List.mem_append_left _ (h2 sid hs)⟩
    intro c hc hne
    apply List.mem_append_left
    cases chatId with
    | none => exact h1 c hc hne
    | some cid =>
      by_cases hb : cid = ""
      · simp only [Community.step, Community.handleToggleFavorite,
          if_pos hb] at hc
        exact h1 c hc hne
      · simp only [Community.step, Community.handleToggleFavorite,
          if_neg hb] at hc
        rcases List.mem_map.mp hc with ⟨c0, hc0, rfl⟩
        by_cases hid : c0.id = cid
        · rw [if_pos hid] at hne ⊢
          exact h1 c0 hc0 hne
        · rw [if_neg hid] at hne ⊢
          exact h1 c0 hc0 hne
  | select chatId resp =>
    cases chatId with
    | none =>
      refine ⟨?_, by intro sid hs; cases hs⟩
      intro c hc hne
      exact List.mem_append_left _ (h1 c hc hne)
    | some sid =>
      constructor
      · intro c hc hne
        by_cases hb : sid = ""
        · simp only [Community.step, Community.fetchMessages,
            if_pos hb] at hc
          exact List.mem_append_left _ (h1 c hc hne)
        · cases resp with
          | none =>
            simp only [Community.step, Community.fetchMessages,
              if_neg hb] at hc
            exact List.mem_append_left _ (h1 c hc hne)
          | some data =>
            simp only [Community.step, Community.fetchMessages,
              if_neg hb] at hc
            rcases List.mem_map.mp hc with ⟨c0, hc0, rfl⟩
            by_cases hid : c0.id = sid
            · rw [if_pos hid]
              apply List.mem_append_right
              simp [Community.opOpened, hid]
            · rw [if_neg hid] at hne ⊢
              exact List.mem_append_left _ (h1 c0 hc0 hne)
      · intro sid2 hs
        simp only [Community.step, Option.some.injEq] at hs
        subst hs
        exact List.mem_append_right _ (by simp [Community.opOpened])
  | send content now resp =>
    rcases hsel : s.selectedChatId with _ | sid
    · simp only [Community.step, hsel]
      exact ⟨fun c hc hne => List.mem_append_left _ (h1 c hc hne),
        fun sid hs => List.mem_append_left _ (h2 sid hs)⟩
    · simp only [Community.step, hsel]
      refine ⟨?_, fun sid2 hs => List.mem_append_left _ (h2 sid2 (hsel ▸ hs))⟩
      intro c hc hne
      apply List.mem_append_left
      by_cases hb : jsTrim content = ""
      · simp only [Community.handleSendMessage, if_pos hb] at hc
        exact h1 c hc hne
      · cases resp with
        | none =>
          simp only [Community.handleSendMessage, if_neg hb] at hc
          exact h1 c hc hne
        | some r =>
          simp only [Community.handleSendMessage, if_neg hb] at hc
          rcases List.mem_map.mp hc with ⟨c0, hc0, rfl⟩
          by_cases hid : c0.id = sid
          · rw [if_pos hid]
            exact hid ▸ h2 sid hsel
          · rw [if_neg hid] at hne ⊢
            exact h1 c0 hc0 hne

/-- Running a trace preserves the Opened invariant, collecting the opened
ids of the whole trace. -/
theorem opened_runOps (fmtTime : Option String → String) :
    ∀ (ops : List Community.Op) (s : Community.CState) (opened : List String),
    Community.Opened s opened →
    Community.Opened (Community.runOps fmtTime s ops)
      (opened ++ Community.openedIds ops)
  | [], s, opened, h => by
    simpa [Community.runOps, Community.openedIds] using h
  | op :: rest, s, opened, h => by
    have hstep := opened_step fmtTime s op opened h
    have hrest := opened_runOps fmtTime rest (Community.step fmtTime s op)
      (opened ++ Community.opOpened op) hstep
    have heq : (opened ++ Community.opOpened op) ++ Community.openedIds rest
        = opened ++ Community.openedIds (op :: rest) := by
      simp [Community.openedIds, List.append_assoc]
    rw [heq] at hrest
    exact hrest

/-- C8: along any trace of operations from the initial state, every chat
whose message list is non-empty has an id the trace opened (selected); and
each of the three operations that add entries to the chat list (the
conversation-list fetch, group creation, opening a direct chat) adds them
with an empty message list. -/
theorem messages_empty_until_opened
    (fmtTime : Option String → String) (ops : List Community.Op)
    (chats : List Chat) (showFlag : Bool) (gname : String)
    (memberIds : List Nat) (now : String) (sel : Option String)
    (user : User) (r : DmResp) :
    (∀ c ∈ (Community.runOps fmtTime ⟨[], none⟩ ops).chats,
        c.messages ≠ [] → c.id ∈ Community.openedIds ops)
    ∧ (∀ data : List ServerConv,
        ∀ c ∈ (Community.fetchConversations fmtTime chats (some data)).1,
        c.messages = [])
    ∧ (∀ g : GroupResp, ∃ e : Chat,
        (Community.handleCreateGroup chats showFlag gname memberIds now
          (some g)).1 = e :: chats ∧ e.messages = [])
    ∧ (toString r.id ∉ chats.map Chat.id →
        ∃ e : Chat, (Community.handleOpenDm chats sel user now (some r)).1
          = e :: chats ∧ e.id = toString r.id ∧ e.messages = []) := by
  refine ⟨?_, ?_, ?_, ?_⟩
  · have hinit : Community.Opened ⟨[], none⟩ [] := by
      constructor
      · intro c hc
        cases hc
      · intro sid hs
        cases hs
    have hrun := opened_runOps fmtTime ops ⟨[], none⟩ [] hinit
    intro c hc hne
    simpa using hrun.1 c hc hne
  · intro data c hc
    simp only [Community.fetchConversations] at hc
    rcases List.mem_map.mp hc with ⟨conv, _, rfl⟩
    rfl
  · intro g
    exact ⟨_, rfl, rfl⟩
  · intro hfresh
    have hany : ¬ ((chats.any fun c => c.id = toString r.id) = true) := by
      intro hx
      rcases List.any_eq_true.mp hx with ⟨c, hc, hcid⟩
      exact hfresh (List.mem_map.mpr ⟨c, hc, by simpa using hcid⟩)
    refine ⟨{ id := toString r.id, name := user.name, isGroup := false,
               isFavorite := false, unread := 0, timestamp := now,
               members := [user], messages := [], type := some "USER" },
      ?_, rfl, rfl⟩
    simp only [Community.handleOpenDm]
    rw [if_neg hany]

/-- Witness for C8 at a small concrete trace: a conversation fetch loads a
chat, selecting it fetches one message; the final chat has a non-empty
message list and its id is among the opened ids. -/
theorem messages_empty_until_opened_witness :
    (∀ c ∈ (Community.runOps (fun _ => "t") ⟨[], none⟩
        [Community.Op.fetchConvs
          (some [{ id := 1, name := some "a", dmName := none, type := "GROUP",
                   updatedAt := none, members := none }]),
         Community.Op.select (some "1")
          (some [{ id := 9, content := "hi", createdAt := none,
                   senderName := none, senderIsMe := some true }])]).chats,
      c.messages ≠ [] →
      c.id ∈ Community.openedIds
        [Community.Op.fetchConvs
          (some [{ id := 1, name := some "a", dmName := none, type := "GROUP",
                   updatedAt := none, members := none }]),
         Community.Op.select (some "1")
          (some [{ id := 9, content := "hi", createdAt := none,
                   senderName := none, senderIsMe := some true }])])
    ∧ (toString (5 : Nat) ∉ (([] : List Chat)).map Chat.id →
        ∃ e : Chat, (Community.handleOpenDm [] none ⟨"9", "u", "u@x", none⟩
            "t" (some ⟨5⟩)).1 = e :: []
          ∧ e.id = toString (5 : Nat) ∧ e.messages = []) :=
  ⟨(messages_empty_until_opened (fun _ => "t")
      [Community.Op.fetchConvs
        (some [{ id := 1, name := some "a", dmName := none, type := "GROUP",
                 updatedAt := none, members := none }]),
       Community.Op.select (some "1")
        (some [{ id := 9, content := "hi", createdAt := none,
                 senderName := none, senderIsMe := some true }])]
      [] true "g" [] "t" none ⟨"9", "u", "u@x", none⟩ ⟨5⟩).1,
   (messages_empty_until_opened (fun _ => "t") [] [] true "g" [] "t" none
      ⟨"9", "u", "u@x", none⟩ ⟨5⟩).2.2.2⟩

end TripVerse
